import Mathlib

/-!
Shallow embedding of the resilient transcription client of `bot.py`
(the functions `exponential_backoff_retry`, `transcribe_audio`, and the
response-classification part of `handle_audio`), together with proofs of
the specified properties of that client.

Python values flowing through the client are JSON-like dictionaries; we
model them with an inductive `Json` type.  HTTP mechanics are modelled by
an abstract `respond` function mapping the constructed request and the
0-indexed attempt number to an attempt outcome (a response, a connection
error, or a timeout).  Exceptions escaping a function are modelled with
`Except`; sleeping is modelled by recording the requested delay (a
rational number of seconds) in a trace.
-/

/-- JSON-like Python values (dicts, lists, strings, numbers, booleans, None). -/
inductive Json where
  | null : Json
  | bool (b : Bool) : Json
  | num (n : Int) : Json
  | str (s : String) : Json
  | arr (elems : List Json) : Json
  | obj (fields : List (String × Json)) : Json

/-- Transport-level errors raised by the HTTP library: `httpx.RequestError`
(connection problems) and `httpx.TimeoutException`. -/
inductive TransportError where
  | connectionError : TransportError
  | timeout : TransportError
deriving DecidableEq

/-- Python exceptions that can escape the client code we model:
a transport-level error re-raised by the retry wrapper, a JSON decode
error from `response.json()` on an unparseable body, and an attribute
error from calling `.get` on a non-dict value. -/
inductive PyError where
  | transport (e : TransportError) : PyError
  | jsonDecode : PyError
  | attrError : PyError
deriving DecidableEq

/-- An HTTP response: its status code, and its body parsed as JSON when the
body is parseable (`none` models a body that `response.json()` fails on,
such as an empty body). -/
structure HttpResponse where
  status_code : Nat
  body : Option Json

/-- One attempt of the wrapped call `client.post(...)`: either an HTTP
response arrives, or a transport-level error is raised. -/
inductive AttemptOutcome where
  | response (r : HttpResponse) : AttemptOutcome
  | transportError (e : TransportError) : AttemptOutcome

/-- The HTTP request constructed by `transcribe_audio`: method, URL,
content-type header, per-attempt timeout in seconds, and JSON body. -/
structure HttpRequest where
  method : String
  url : String
  contentType : String
  timeoutSeconds : Nat
  jsonBody : Json

/-- Result of the retry wrapper `exponential_backoff_retry`: a returned
response, a re-raised transport error, or the `None` returned when the
`for` loop completes without running (only possible when `max_retries = 0`). -/
inductive RetryResult where
  | ok (r : HttpResponse) : RetryResult
  | raised (e : TransportError) : RetryResult
  | noneResult : RetryResult

/-- Observable behaviour of one run of the retry wrapper: its result, the
list of backoff delays slept (in order, in seconds), and the number of
HTTP attempts performed. -/
structure RetryTrace where
  result : RetryResult
  delays : List ℚ
  attempts : Nat

/-- Observable behaviour of one run of `transcribe_audio`: the returned
dict (or the escaping exception), the backoff delays slept, and the number
of HTTP attempts performed. -/
structure RunTrace where
  result : Except PyError Json
  delays : List ℚ
  attempts : Nat

/-- Python truthiness of a JSON-like value (`if result.get("success"):`). -/
def Json.truthy : Json → Bool
  | .null => false
  | .bool b => b
  | .num n => n != 0
  | .str s => s != ""
  | .arr [] => false
  | .arr (_ :: _) => true
  | .obj [] => false
  | .obj (_ :: _) => true

/-- Python `d.get(key, default)`: on a dict, the value at `key` when
present and `default` otherwise; on any non-dict value, `.get` raises an
`AttributeError`. -/
def pyGetD (j : Json) (key : String) (default : Json) : Except PyError Json :=
  match j with
  | .obj fields => .ok ((List.lookup key fields).getD default)
  | _ => .error .attrError

/-- The dict `{"success": False, "error": reason}` built by
`transcribe_audio` on every failure path. -/
def mkFailure (reason : Json) : Json :=
  Json.obj [("success", Json.bool false), ("error", reason)]

/-- The base64 alphabet used by Python's `base64.b64encode`. -/
def base64Alphabet : List Char :=
  "ABCDEFGHIJKLMNOPQRSTUVWXYZabcdefghijklmnopqrstuvwxyz0123456789+/".toList

/-- The character encoding a 6-bit group. -/
def b64Char (n : Nat) : Char := base64Alphabet.getD n 'A'

/-- Standard base64 of a byte sequence (Python `base64.b64encode(...)
.decode("utf-8")`): groups of three bytes become four alphabet characters,
a trailing group of one or two bytes is padded with `=`. -/
def b64encode : List Nat → String
  | [] => ""
  | [a] =>
      String.mk [b64Char (a / 4), b64Char (a % 4 * 16), '=', '=']
  | [a, b] =>
      String.mk [b64Char (a / 4), b64Char (a % 4 * 16 + b / 16), b64Char (b % 16 * 4), '=']
  | a :: b :: c :: rest =>
      String.mk [b64Char (a / 4), b64Char (a % 4 * 16 + b / 16),
        b64Char (b % 16 * 4 + c / 64), b64Char (c % 64)] ++ b64encode rest

/-- The fixed configured endpoint URL (`API_URL` in `bot.py`). -/
def API_URL : String :=
  "https://5pinlu85tk.execute-api.us-east-1.amazonaws.com/api/v1/speech-to-text"

/-- Default total attempt count (`MAX_RETRIES` in `bot.py`). -/
def MAX_RETRIES : Nat := 3

/-- Default base delay in seconds (`BASE_DELAY` in `bot.py`). -/
def BASE_DELAY : ℚ := 1

/-- The request built by `transcribe_audio` before the retry loop: a POST
to `API_URL` with a JSON content-type header, a 60-second timeout, and the
JSON body `{"audioData": <base64 of audio_data>, "language": language_code}`. -/
def buildRequest (audio_data : List Nat) (language_code : String) : HttpRequest :=
  { method := "POST"
    url := API_URL
    contentType := "application/json"
    timeoutSeconds := 60
    jsonBody := Json.obj
      [("audioData", Json.str (b64encode audio_data)),
       ("language", Json.str language_code)] }

/-- The body of the `for attempt in range(max_retries)` loop of
`exponential_backoff_retry`, with `fuel` iterations remaining (the wrapper
below starts it with `fuel = max_retries`, `attempt = 0`, so that
`attempt` ranges over `0, ..., max_retries - 1` exactly as in the source).
Each iteration calls `func attempt`; a response is returned at once; a
transport error on the last attempt (`attempt == max_retries - 1`) is
re-raised; any other transport error sleeps
`base_delay * 2 ^ attempt + jitter attempt` seconds and continues.  If the
loop exhausts without executing (`fuel = 0`), `None` is returned. -/
def retryLoop (func : Nat → AttemptOutcome) (max_retries : Nat) (base_delay : ℚ)
    (jitter : Nat → ℚ) : Nat → Nat → RetryTrace
  | 0, _ => ⟨.noneResult, [], 0⟩
  | fuel + 1, attempt =>
      match func attempt with
      | .response r => ⟨.ok r, [], 1⟩
      | .transportError e =>
          if attempt = max_retries - 1 then ⟨.raised e, [], 1⟩
          else
            let delay := base_delay * 2 ^ attempt + jitter attempt
            let rest := retryLoop func max_retries base_delay jitter fuel (attempt + 1)
            ⟨rest.result, delay :: rest.delays, rest.attempts + 1⟩

/-- `exponential_backoff_retry(func, max_retries=..., base_delay=...)` from
`bot.py`; `jitter attempt` models the value drawn by `random.uniform(0, 1)`
before the sleep following `attempt`. -/
def exponential_backoff_retry (func : Nat → AttemptOutcome) (max_retries : Nat)
    (base_delay : ℚ) (jitter : Nat → ℚ) : RetryTrace :=
  retryLoop func max_retries base_delay jitter max_retries 0

/-- The status dispatch of `transcribe_audio` (bot.py lines 191-200) applied
to a response that arrived: 200 returns `response.json()`; 400 and 500
return `{"success": False, "error": body.get("error", default)}` with
defaults "Bad request" and "Server error"; any other status returns
`{"success": False, "error": "Unexpected status code: <status>"}`.
`response.json()` on an unparseable body raises a JSON decode error. -/
def classifyResponse (r : HttpResponse) : Except PyError Json :=
  if r.status_code = 200 then
    match r.body with
    | some j => .ok j
    | none => .error .jsonDecode
  else if r.status_code = 400 then
    match r.body with
    | some j => do pure (mkFailure (← pyGetD j "error" (Json.str "Bad request")))
    | none => .error .jsonDecode
  else if r.status_code = 500 then
    match r.body with
    | some j => do pure (mkFailure (← pyGetD j "error" (Json.str "Server error")))
    | none => .error .jsonDecode
  else
    .ok (mkFailure (Json.str ("Unexpected status code: " ++ toString r.status_code)))

/-- `transcribe_audio(audio_data, language_code)` from `bot.py`, against an
abstract endpoint `respond` mapping the constructed request and the
0-indexed attempt number to that attempt's outcome.  It base64-encodes the
audio, builds the request, runs it through `exponential_backoff_retry`,
returns the connectivity-failure dict when the wrapper returned `None`,
propagates a re-raised transport error, and otherwise classifies the
response by status code. -/
def transcribe_audio (respond : HttpRequest → Nat → AttemptOutcome)
    (audio_data : List Nat) (language_code : String) (max_retries : Nat)
    (base_delay : ℚ) (jitter : Nat → ℚ) : RunTrace :=
  let req := buildRequest audio_data language_code
  let rt := exponential_backoff_retry (respond req) max_retries base_delay jitter
  let result : Except PyError Json :=
    match rt.result with
    | .noneResult => .ok (mkFailure (Json.str "Failed to connect to API after retries"))
    | .raised e => .error (.transport e)
    | .ok r => classifyResponse r
  ⟨result, rt.delays, rt.attempts⟩

/-- How the caller `handle_audio` (bot.py lines 353-367) renders the dict
returned by `transcribe_audio`: a message showing the transcription, the
soft "no text detected" notice, or an error message with the reason. -/
inductive CallerOutcome where
  | successMessage (transcription : Json) : CallerOutcome
  | noTextDetected : CallerOutcome
  | errorMessage (error_msg : Json) : CallerOutcome

/-- The response-classification logic of `handle_audio` (bot.py lines
353-367): `if result.get("success"):` then
`result.get("data", {}).get("transcription", "")` is shown when truthy and
the "no text detected" notice otherwise; else an error message built from
`result.get("error", "Unknown error occurred")`. -/
def handle_audio_result (result : Json) : Except PyError CallerOutcome := do
  let s ← pyGetD result "success" Json.null
  if s.truthy then
    let data ← pyGetD result "data" (Json.obj [])
    let t ← pyGetD data "transcription" (Json.str "")
    if t.truthy then pure (.successMessage t) else pure .noTextDetected
  else
    let e ← pyGetD result "error" (Json.str "Unknown error occurred")
    pure (.errorMessage e)

/-- `pat` is an initial segment of `s`. -/
def strStartsWith : List Char → List Char → Bool
  | [], _ => true
  | _ :: _, [] => false
  | p :: ps, c :: cs => p == c && strStartsWith ps cs

/-- `pat` occurs contiguously somewhere in `s`. -/
def strOccursIn (pat : List Char) : List Char → Bool
  | [] => strStartsWith pat []
  | c :: tl => strStartsWith pat (c :: tl) || strOccursIn pat tl

/-- A list starts with itself. -/
theorem strStartsWith_self : ∀ l : List Char, strStartsWith l l = true := by
  intro l
  induction l with
  | nil => rfl
  | cons c cs ih => simp [strStartsWith, ih]

/-- A pattern occurs in any list that ends with it. -/
theorem strOccursIn_append (pat : List Char) :
    ∀ l : List Char, strOccursIn pat (l ++ pat) = true := by
  intro l
  induction l with
  | nil =>
      cases pat with
      | nil => rfl
      | cons p ps => simp [strOccursIn, strStartsWith_self]
  | cons c cs ih => simp [strOccursIn, ih]

/-- When every attempt raises a transport error, the retry loop started with
`attempt + fuel = max_retries` and at least one iteration left performs
exactly `fuel` attempts, sleeps the delays
`base_delay * 2 ^ i + jitter i` for `i = attempt, ..., attempt + fuel - 2`,
and ends by re-raising a transport error. -/
theorem retryLoop_all_fail (func : Nat → AttemptOutcome) (max_retries : Nat)
    (base_delay : ℚ) (jitter : Nat → ℚ)
    (hall : ∀ i, ∃ e, func i = .transportError e) :
    ∀ fuel attempt, attempt + fuel = max_retries → 1 ≤ fuel →
      (retryLoop func max_retries base_delay jitter fuel attempt).attempts = fuel ∧
      (retryLoop func max_retries base_delay jitter fuel attempt).delays =
        List.map (fun i => base_delay * 2 ^ i + jitter i)
          (List.range' attempt (fuel - 1)) ∧
      ∃ e, (retryLoop func max_retries base_delay jitter fuel attempt).result =
        .raised e := by
  intro fuel
  induction fuel with
  | zero => intro attempt _ h1; exact absurd h1 (by omega)
  | succ k ih =>
      intro attempt hinv _
      obtain ⟨e, he⟩ := hall attempt
      by_cases hlast : attempt = max_retries - 1
      · have hk : k = 0 := by omega
        subst hk
        simp only [retryLoop, he]
        rw [if_pos hlast]
        exact ⟨rfl, rfl, e, rfl⟩
      · have hk : 1 ≤ k := by omega
        obtain ⟨ha, hd, e2, hr⟩ := ih (attempt + 1) (by omega) hk
        have hrange : List.range' attempt k = attempt :: List.range' (attempt + 1) (k - 1) := by
          cases k with
          | zero => exact absurd hk (by omega)
          | succ m => simpa using List.range'_succ attempt m 1
        refine ⟨?_, ?_, e2, ?_⟩ <;>
          simp only [retryLoop, he, if_neg hlast, Nat.add_sub_cancel]
        · simp [ha]
        · rw [hrange]
          simp [hd]
        · simp [hr]

/-- When every attempt raises a transport error and `max_retries ≥ 1`,
`exponential_backoff_retry` performs exactly `max_retries` attempts, sleeps
`base_delay * 2 ^ i + jitter i` for `i = 0, ..., max_retries - 2` in order,
and re-raises a transport error. -/
theorem retry_all_fail (func : Nat → AttemptOutcome) (max_retries : Nat)
    (base_delay : ℚ) (jitter : Nat → ℚ)
    (hall : ∀ i, ∃ e, func i = .transportError e) (hmr : 1 ≤ max_retries) :
    (exponential_backoff_retry func max_retries base_delay jitter).attempts = max_retries ∧
    (exponential_backoff_retry func max_retries base_delay jitter).delays =
      List.map (fun i => base_delay * 2 ^ i + jitter i)
        (List.range (max_retries - 1)) ∧
    ∃ e, (exponential_backoff_retry func max_retries base_delay jitter).result =
      .raised e := by
  have h := retryLoop_all_fail func max_retries base_delay jitter hall max_retries 0
    (by omega) hmr
  rw [List.range_eq_range']
  exact h

/-- With at least one iteration left and `attempt + fuel = max_retries`, the
retry loop never reaches the `return None` after the loop: each iteration
either returns a response, re-raises on the final attempt, or recurses with
an iteration still available. -/
theorem retryLoop_ne_none (func : Nat → AttemptOutcome) (max_retries : Nat)
    (base_delay : ℚ) (jitter : Nat → ℚ) :
    ∀ fuel attempt, attempt + fuel = max_retries → 1 ≤ fuel →
      (retryLoop func max_retries base_delay jitter fuel attempt).result ≠
        .noneResult := by
  intro fuel
  induction fuel with
  | zero => intro attempt _ h1; exact absurd h1 (by omega)
  | succ k ih =>
      intro attempt hinv _
      cases hfa : func attempt with
      | response r =>
          simp only [retryLoop, hfa]
          intro h
          exact RetryResult.noConfusion h
      | transportError e =>
          by_cases hlast : attempt = max_retries - 1
          · simp only [retryLoop, hfa, if_pos hlast]
            intro h
            exact RetryResult.noConfusion h
          · have hk : 1 ≤ k := by omega
            simp only [retryLoop, hfa, if_neg hlast]
            exact ih (attempt + 1) (by omega) hk

/-- The result of the retry loop does not depend on the jitter values drawn:
they only enter the recorded delays. -/
theorem retryLoop_result_jitter (func : Nat → AttemptOutcome) (max_retries : Nat)
    (base_delay : ℚ) (j1 j2 : Nat → ℚ) :
    ∀ fuel attempt,
      (retryLoop func max_retries base_delay j1 fuel attempt).result =
      (retryLoop func max_retries base_delay j2 fuel attempt).result := by
  intro fuel
  induction fuel with
  | zero => intro attempt; rfl
  | succ k ih =>
      intro attempt
      cases hfa : func attempt with
      | response r => simp only [retryLoop, hfa]
      | transportError e =>
          by_cases hlast : attempt = max_retries - 1
          · simp only [retryLoop, hfa, if_pos hlast]
          · simp only [retryLoop, hfa, if_neg hlast]
            exact ih (attempt + 1)

/-- When the first attempt yields a response, the retry wrapper returns it
at once: one attempt, no sleeps. -/
theorem retry_first_response (func : Nat → AttemptOutcome) (max_retries : Nat)
    (base_delay : ℚ) (jitter : Nat → ℚ) (r : HttpResponse)
    (hmr : 1 ≤ max_retries) (h0 : func 0 = .response r) :
    exponential_backoff_retry func max_retries base_delay jitter =
      ⟨.ok r, [], 1⟩ := by
  obtain ⟨k, rfl⟩ : ∃ k, max_retries = k + 1 := ⟨max_retries - 1, by omega⟩
  simp [exponential_backoff_retry, retryLoop, h0]

/-- An endpoint that raises a connection error on every attempt. -/
def alwaysConnectionError : HttpRequest → Nat → AttemptOutcome :=
  fun _ _ => .transportError .connectionError

/-- A jitter draw of zero seconds on every attempt. -/
def zeroJitter : Nat → ℚ := fun _ => 0

/-- A jitter draw of half a second on every attempt. -/
def halfJitter : Nat → ℚ := fun _ => 1 / 2

/-- The 200-response body `{"success": true, "data": {"transcription": t}}`. -/
def successBody (t : String) : Json :=
  Json.obj [("success", Json.bool true),
            ("data", Json.obj [("transcription", Json.str t)])]

/-- Claim C1, counterexample: with the configured `MAX_RETRIES = 3`, against
an endpoint whose every attempt fails with a connection error,
`transcribe_audio` does not return the connectivity-failure value: the last
transport error is re-raised and escapes the client instead. -/
theorem C1_counterexample :
    (transcribe_audio alwaysConnectionError [1, 2, 3] "am-ET" MAX_RETRIES BASE_DELAY
        zeroJitter).result ≠
      Except.ok (mkFailure (Json.str "Failed to connect to API after retries")) := by
  have hres : (transcribe_audio alwaysConnectionError [1, 2, 3] "am-ET" MAX_RETRIES
      BASE_DELAY zeroJitter).result =
      Except.error (PyError.transport TransportError.connectionError) := rfl
  rw [hres]
  intro h
  exact Except.noConfusion h

/-- Claim C1 (amended): when every HTTP attempt fails with a transport-level
error, then for `max_retries ≥ 1` the final transport error propagates out
of `transcribe_audio` as a raised exception (caught only by the caller),
while the Failure value with reason "Failed to connect to API after
retries" is returned exactly when `max_retries = 0`. -/
theorem C1_all_transport_failures (respond : HttpRequest → Nat → AttemptOutcome)
    (audio_data : List Nat) (language_code : String) (max_retries : Nat)
    (base_delay : ℚ) (jitter : Nat → ℚ)
    (hall : ∀ i, ∃ e, respond (buildRequest audio_data language_code) i =
      .transportError e) :
    (1 ≤ max_retries → ∃ e,
      (transcribe_audio respond audio_data language_code max_retries base_delay
        jitter).result = .error (.transport e)) ∧
    (max_retries = 0 →
      (transcribe_audio respond audio_data language_code max_retries base_delay
        jitter).result =
        .ok (mkFailure (Json.str "Failed to connect to API after retries"))) := by
  constructor
  · intro hmr
    obtain ⟨-, -, e, hr⟩ := retry_all_fail _ max_retries base_delay jitter hall hmr
    exact ⟨e, by simp [transcribe_audio, hr]⟩
  · intro h0
    subst h0
    rfl

/-- Claim C1, witness at `max_retries = 0`. -/
theorem C1_witness :
    (transcribe_audio alwaysConnectionError [] "am-ET" 0 1 zeroJitter).result =
      Except.ok (mkFailure (Json.str "Failed to connect to API after retries")) :=
  (C1_all_transport_failures alwaysConnectionError [] "am-ET" 0 1 zeroJitter
    (fun _ => ⟨.connectionError, rfl⟩)).2 rfl

/-- Claim C2: when every attempt fails with a transport error,
`transcribe_audio` performs exactly `max_retries` attempts; the delay after
0-indexed attempt `i` is `base_delay * 2 ^ i + jitter i` for
`i = 0, ..., max_retries - 2`; with jitter drawn from `[0, 1)` each delay is
at least `base_delay * 2 ^ i`, and the deterministic parts of the delays
are non-decreasing in `i`. -/
theorem C2_retry_schedule (respond : HttpRequest → Nat → AttemptOutcome)
    (audio_data : List Nat) (language_code : String) (max_retries : Nat)
    (base_delay : ℚ) (jitter : Nat → ℚ)
    (hall : ∀ i, ∃ e, respond (buildRequest audio_data language_code) i =
      .transportError e)
    (hmr : 1 ≤ max_retries)
    (hjit : ∀ i, 0 ≤ jitter i ∧ jitter i < 1)
    (hbd : 0 ≤ base_delay) :
    (transcribe_audio respond audio_data language_code max_retries base_delay
      jitter).attempts = max_retries ∧
    (transcribe_audio respond audio_data language_code max_retries base_delay
      jitter).delays =
      List.map (fun i => base_delay * 2 ^ i + jitter i)
        (List.range (max_retries - 1)) ∧
    (∀ i, i < max_retries - 1 →
      (transcribe_audio respond audio_data language_code max_retries base_delay
        jitter).delays[i]? = some (base_delay * 2 ^ i + jitter i) ∧
      base_delay * 2 ^ i ≤ base_delay * 2 ^ i + jitter i) ∧
    (∀ i, base_delay * 2 ^ i ≤ base_delay * 2 ^ (i + 1)) := by
  obtain ⟨ha, hd, -⟩ := retry_all_fail _ max_retries base_delay jitter hall hmr
  have hA : (transcribe_audio respond audio_data language_code max_retries base_delay
      jitter).attempts =
      (exponential_backoff_retry (respond (buildRequest audio_data language_code))
        max_retries base_delay jitter).attempts := rfl
  have hD : (transcribe_audio respond audio_data language_code max_retries base_delay
      jitter).delays =
      (exponential_backoff_retry (respond (buildRequest audio_data language_code))
        max_retries base_delay jitter).delays := rfl
  refine ⟨hA.trans ha, hD.trans hd, ?_, ?_⟩
  · intro i hi
    constructor
    · rw [hD, hd, List.getElem?_map, List.getElem?_range hi]
      rfl
    · exact le_add_of_nonneg_right (hjit i).1
  · intro i
    have h2 : (2 : ℚ) ^ i ≤ 2 ^ (i + 1) := by
      rw [pow_succ]
      nlinarith [pow_nonneg (by norm_num : (0 : ℚ) ≤ 2) i]
    nlinarith

/-- Claim C2, witness at the default configuration with jitter 1/2. -/
theorem C2_witness :
    (transcribe_audio alwaysConnectionError [] "am-ET" 3 1 halfJitter).attempts = 3 ∧
    (transcribe_audio alwaysConnectionError [] "am-ET" 3 1 halfJitter).delays =
      List.map (fun i => (1 : ℚ) * 2 ^ i + halfJitter i) (List.range 2) :=
  ⟨(C2_retry_schedule alwaysConnectionError [] "am-ET" 3 1 halfJitter
      (fun _ => ⟨.connectionError, rfl⟩) (by omega)
      (fun _ => ⟨by norm_num [halfJitter], by norm_num [halfJitter]⟩)
      (by norm_num)).1,
   (C2_retry_schedule alwaysConnectionError [] "am-ET" 3 1 halfJitter
      (fun _ => ⟨.connectionError, rfl⟩) (by omega)
      (fun _ => ⟨by norm_num [halfJitter], by norm_num [halfJitter]⟩)
      (by norm_num)).2.1⟩

/-- Claim C10: with `max_retries = 0` the retry wrapper returns `None` with
no HTTP attempt performed and `transcribe_audio` returns the
connectivity-failure dict; with `max_retries ≥ 1` the `None`-returning
fall-through of the loop is unreachable. -/
theorem C10_zero_max_retries (respond : HttpRequest → Nat → AttemptOutcome)
    (audio_data : List Nat) (language_code : String) (max_retries : Nat)
    (base_delay : ℚ) (jitter : Nat → ℚ) :
    (max_retries = 0 →
      exponential_backoff_retry (respond (buildRequest audio_data language_code))
        max_retries base_delay jitter = ⟨.noneResult, [], 0⟩ ∧
      transcribe_audio respond audio_data language_code max_retries base_delay
        jitter =
        ⟨.ok (mkFailure (Json.str "Failed to connect to API after retries")), [], 0⟩) ∧
    (1 ≤ max_retries →
      (exponential_backoff_retry (respond (buildRequest audio_data language_code))
        max_retries base_delay jitter).result ≠ .noneResult) := by
  constructor
  · intro h0
    subst h0
    exact ⟨rfl, rfl⟩
  · intro hmr
    exact retryLoop_ne_none (respond (buildRequest audio_data language_code))
      max_retries base_delay jitter max_retries 0 (by omega) hmr

/-- Claim C10, witness at `max_retries = 0`. -/
theorem C10_witness :
    transcribe_audio alwaysConnectionError [] "am-ET" 0 1 zeroJitter =
      ⟨.ok (mkFailure (Json.str "Failed to connect to API after retries")), [], 0⟩ :=
  ((C10_zero_max_retries alwaysConnectionError [] "am-ET" 0 1 zeroJitter).1 rfl).2

/-- Claim C3: whenever the first attempt yields an HTTP response (any
status), `transcribe_audio` performs exactly one attempt, sleeps no backoff
delay, and returns the classification of that response immediately; in
particular a first-attempt 400 with body `{"error": "bad audio"}` returns
the failure dict with reason "bad audio" after that single attempt. -/
theorem C3_no_retry_on_response (respond : HttpRequest → Nat → AttemptOutcome)
    (audio_data : List Nat) (language_code : String) (max_retries : Nat)
    (base_delay : ℚ) (jitter : Nat → ℚ) (r : HttpResponse)
    (hmr : 1 ≤ max_retries)
    (h0 : respond (buildRequest audio_data language_code) 0 = .response r) :
    transcribe_audio respond audio_data language_code max_retries base_delay
      jitter = ⟨classifyResponse r, [], 1⟩ ∧
    (r = ⟨400, some (Json.obj [("error", Json.str "bad audio")])⟩ →
      (transcribe_audio respond audio_data language_code max_retries base_delay
        jitter).result = .ok (mkFailure (Json.str "bad audio"))) := by
  have hretry := retry_first_response _ max_retries base_delay jitter r hmr h0
  have h1 : transcribe_audio respond audio_data language_code max_retries base_delay
      jitter = ⟨classifyResponse r, [], 1⟩ := by
    simp [transcribe_audio, hretry]
  refine ⟨h1, ?_⟩
  intro hr400
  subst hr400
  rw [h1]
  rfl

/-- Claim C3, witness: a first-attempt 400 with `{"error": "bad audio"}`. -/
theorem C3_witness :
    transcribe_audio
        (fun _ _ => .response ⟨400, some (Json.obj [("error", Json.str "bad audio")])⟩)
        [] "am-ET" 3 1 zeroJitter =
      ⟨classifyResponse ⟨400, some (Json.obj [("error", Json.str "bad audio")])⟩,
        [], 1⟩ :=
  (C3_no_retry_on_response
    (fun _ _ => .response ⟨400, some (Json.obj [("error", Json.str "bad audio")])⟩)
    [] "am-ET" 3 1 zeroJitter
    ⟨400, some (Json.obj [("error", Json.str "bad audio")])⟩
    (by omega) rfl).1

/-- Claim C4, counterexample: for a first-attempt 500 response with no
parseable body, `transcribe_audio` does not return the "Server error"
failure dict; `response.json()` raises and the JSON decode error escapes. -/
theorem C4_counterexample :
    (transcribe_audio (fun _ _ => .response ⟨500, none⟩) [] "am-ET" MAX_RETRIES
        BASE_DELAY zeroJitter).result ≠
      Except.ok (mkFailure (Json.str "Server error")) := by
  have hres : (transcribe_audio (fun _ _ => .response ⟨500, none⟩) [] "am-ET"
      MAX_RETRIES BASE_DELAY zeroJitter).result =
      Except.error PyError.jsonDecode := rfl
  rw [hres]
  intro h
  exact Except.noConfusion h

/-- Claim C4 (amended): for a first-attempt 400 (resp. 500) response whose
body parses as a JSON object, `transcribe_audio` returns the failure dict
whose reason is the object's `error` field, defaulting to "Bad request"
(resp. "Server error") when the field is absent; when the body of a 400 or
500 response is not parseable JSON, the JSON decode error raised by
`response.json()` escapes instead of the default reason being used. -/
theorem C4_status_400_500 (respond : HttpRequest → Nat → AttemptOutcome)
    (audio_data : List Nat) (language_code : String) (max_retries : Nat)
    (base_delay : ℚ) (jitter : Nat → ℚ) (status : Nat) (body : Option Json)
    (hmr : 1 ≤ max_retries)
    (h0 : respond (buildRequest audio_data language_code) 0 =
      .response ⟨status, body⟩)
    (h45 : status = 400 ∨ status = 500) :
    (∀ fields, body = some (Json.obj fields) →
      (transcribe_audio respond audio_data language_code max_retries base_delay
        jitter).result =
        .ok (mkFailure ((List.lookup "error" fields).getD
          (Json.str (if status = 400 then "Bad request" else "Server error"))))) ∧
    (body = none →
      (transcribe_audio respond audio_data language_code max_retries base_delay
        jitter).result = .error .jsonDecode) := by
  have hretry := retry_first_response _ max_retries base_delay jitter
    ⟨status, body⟩ hmr h0
  have h1 : (transcribe_audio respond audio_data language_code max_retries
      base_delay jitter).result = classifyResponse ⟨status, body⟩ := by
    simp [transcribe_audio, hretry]
  constructor
  · intro fields hbody
    subst hbody
    rw [h1]
    rcases h45 with h4 | h5
    · subst h4
      simp [classifyResponse, pyGetD]
    · subst h5
      simp [classifyResponse, pyGetD]
  · intro hbody
    subst hbody
    rw [h1]
    rcases h45 with h4 | h5
    · subst h4
      simp [classifyResponse]
    · subst h5
      simp [classifyResponse]

/-- Claim C4, witness: a 500 response whose object body lacks the `error`
field defaults the reason to "Server error". -/
theorem C4_witness :
    (transcribe_audio (fun _ _ => .response ⟨500, some (Json.obj [])⟩) [] "am-ET"
        3 1 zeroJitter).result = .ok (mkFailure (Json.str "Server error")) :=
  (C4_status_400_500 (fun _ _ => .response ⟨500, some (Json.obj [])⟩) [] "am-ET"
    3 1 zeroJitter 500 (some (Json.obj [])) (by omega) rfl (Or.inr rfl)).1 [] rfl

/-- Claim C5: every attempt posts the single fixed request — a POST to the
configured `API_URL` with a JSON content-type header, a 60-second timeout,
and JSON body `{"audioData": <base64 of the audio bytes>, "language": <the
language code verbatim>}` — and the run depends on the endpoint only
through its behaviour at that one request. -/
theorem C5_request_construction (audio_data : List Nat) (language_code : String) :
    buildRequest audio_data language_code =
      { method := "POST"
        url := API_URL
        contentType := "application/json"
        timeoutSeconds := 60
        jsonBody := Json.obj
          [("audioData", Json.str (b64encode audio_data)),
           ("language", Json.str language_code)] } ∧
    ∀ (respond respond2 : HttpRequest → Nat → AttemptOutcome) (max_retries : Nat)
      (base_delay : ℚ) (jitter : Nat → ℚ),
      (∀ i, respond (buildRequest audio_data language_code) i =
        respond2 (buildRequest audio_data language_code) i) →
      transcribe_audio respond audio_data language_code max_retries base_delay
        jitter =
      transcribe_audio respond2 audio_data language_code max_retries base_delay
        jitter := by
  refine ⟨rfl, ?_⟩
  intro respond respond2 max_retries base_delay jitter h
  have hfun : respond (buildRequest audio_data language_code) =
      respond2 (buildRequest audio_data language_code) := funext h
  simp [transcribe_audio, hfun]

/-- Claim C5, witness: two endpoints agreeing at the constructed request
give identical runs. -/
theorem C5_witness :
    transcribe_audio alwaysConnectionError [1, 2] "en-US" 3 1 zeroJitter =
      transcribe_audio (fun req i => alwaysConnectionError req i) [1, 2] "en-US"
        3 1 zeroJitter :=
  (C5_request_construction [1, 2] "en-US").2 alwaysConnectionError
    (fun req i => alwaysConnectionError req i) 3 1 zeroJitter (fun _ => rfl)

/-- Claim C6: when the first attempt yields a 200 response whose body has
`success: true` and a non-empty `data.transcription` text `t`,
`transcribe_audio` returns that body, and the caller's classification shows
exactly the text `t` as the transcription. -/
theorem C6_success_exact_text (respond : HttpRequest → Nat → AttemptOutcome)
    (audio_data : List Nat) (language_code : String) (max_retries : Nat)
    (base_delay : ℚ) (jitter : Nat → ℚ) (t : String)
    (hmr : 1 ≤ max_retries) (haudio : audio_data ≠ []) (ht : t ≠ "")
    (h0 : respond (buildRequest audio_data language_code) 0 =
      .response ⟨200, some (successBody t)⟩) :
    (transcribe_audio respond audio_data language_code max_retries base_delay
      jitter).result = .ok (successBody t) ∧
    handle_audio_result (successBody t) =
      .ok (.successMessage (Json.str t)) := by
  have hretry := retry_first_response _ max_retries base_delay jitter
    ⟨200, some (successBody t)⟩ hmr h0
  constructor
  · simp [transcribe_audio, hretry, classifyResponse]
  · have hnorm : handle_audio_result (successBody t) =
        if (Json.str t).truthy = true then
          Except.ok (CallerOutcome.successMessage (Json.str t))
        else Except.ok CallerOutcome.noTextDetected := rfl
    have htrue : (Json.str t).truthy = true := by
      simp [Json.truthy, ht]
    rw [hnorm, if_pos htrue]

/-- Claim C6, witness: a 200 response carrying the transcription "hello". -/
theorem C6_witness :
    (transcribe_audio (fun _ _ => .response ⟨200, some (successBody "hello")⟩)
        [1] "am-ET" 3 1 zeroJitter).result = .ok (successBody "hello") :=
  (C6_success_exact_text (fun _ _ => .response ⟨200, some (successBody "hello")⟩)
    [1] "am-ET" 3 1 zeroJitter "hello" (by omega) (by simp) (by simp) rfl).1

/-- Claim C7: a 200 response with `success: true` and an empty transcription
is returned as-is by `transcribe_audio`, and the caller classifies it as the
soft "no text detected" outcome — distinct from both the success outcome
and the error outcome. -/
theorem C7_empty_transcription (respond : HttpRequest → Nat → AttemptOutcome)
    (audio_data : List Nat) (language_code : String) (max_retries : Nat)
    (base_delay : ℚ) (jitter : Nat → ℚ)
    (hmr : 1 ≤ max_retries)
    (h0 : respond (buildRequest audio_data language_code) 0 =
      .response ⟨200, some (successBody "")⟩) :
    (transcribe_audio respond audio_data language_code max_retries base_delay
      jitter).result = .ok (successBody "") ∧
    handle_audio_result (successBody "") = .ok .noTextDetected ∧
    (∀ t, (CallerOutcome.noTextDetected : CallerOutcome) ≠ .successMessage t) ∧
    (∀ msg, (CallerOutcome.noTextDetected : CallerOutcome) ≠ .errorMessage msg) := by
  have hretry := retry_first_response _ max_retries base_delay jitter
    ⟨200, some (successBody "")⟩ hmr h0
  refine ⟨?_, ?_, ?_, ?_⟩
  · simp [transcribe_audio, hretry, classifyResponse]
  · rfl
  · intro t h
    exact CallerOutcome.noConfusion h
  · intro msg h
    exact CallerOutcome.noConfusion h

/-- Claim C7, witness: a 200 response with an empty transcription. -/
theorem C7_witness :
    (transcribe_audio (fun _ _ => .response ⟨200, some (successBody "")⟩)
        [1] "am-ET" 3 1 zeroJitter).result = .ok (successBody "") :=
  (C7_empty_transcription (fun _ _ => .response ⟨200, some (successBody "")⟩)
    [1] "am-ET" 3 1 zeroJitter (by omega) rfl).1

/-- Claim C8: a first-attempt response whose status is outside
`{200, 400, 500}` makes `transcribe_audio` return the failure dict with
reason "Unexpected status code: <status>", and that reason contains the
decimal digits of the status code as a contiguous substring. -/
theorem C8_unexpected_status (respond : HttpRequest → Nat → AttemptOutcome)
    (audio_data : List Nat) (language_code : String) (max_retries : Nat)
    (base_delay : ℚ) (jitter : Nat → ℚ) (status : Nat) (body : Option Json)
    (hmr : 1 ≤ max_retries)
    (h0 : respond (buildRequest audio_data language_code) 0 =
      .response ⟨status, body⟩)
    (hs200 : status ≠ 200) (hs400 : status ≠ 400) (hs500 : status ≠ 500) :
    (transcribe_audio respond audio_data language_code max_retries base_delay
      jitter).result =
      .ok (mkFailure (Json.str ("Unexpected status code: " ++ toString status))) ∧
    strOccursIn (toString status).toList
      ("Unexpected status code: " ++ toString status).toList = true := by
  have hretry := retry_first_response _ max_retries base_delay jitter
    ⟨status, body⟩ hmr h0
  constructor
  · simp [transcribe_audio, hretry, classifyResponse, hs200, hs400, hs500]
  · rw [show ("Unexpected status code: " ++ toString status).toList =
        "Unexpected status code: ".toList ++ (toString status).toList from
      String.data_append _ _]
    exact strOccursIn_append _ _

/-- Claim C8, witness: a 404 response. -/
theorem C8_witness :
    (transcribe_audio (fun _ _ => .response ⟨404, some (Json.obj [])⟩) [] "am-ET"
        3 1 zeroJitter).result =
      .ok (mkFailure (Json.str ("Unexpected status code: " ++ toString 404))) ∧
    strOccursIn (toString 404).toList
      ("Unexpected status code: " ++ toString 404).toList = true :=
  C8_unexpected_status (fun _ _ => .response ⟨404, some (Json.obj [])⟩) [] "am-ET"
    3 1 zeroJitter 404 (some (Json.obj [])) (by omega) rfl
    (by omega) (by omega) (by omega)

/-- Claim C9: the returned value of `transcribe_audio` does not depend on
the jitter drawn for the backoff sleeps: two runs with identical audio,
language code, configuration and (deterministic) endpoint but arbitrary
jitter draws return the same result value. -/
theorem C9_result_deterministic (respond : HttpRequest → Nat → AttemptOutcome)
    (audio_data : List Nat) (language_code : String) (max_retries : Nat)
    (base_delay : ℚ) (j1 j2 : Nat → ℚ) :
    (transcribe_audio respond audio_data language_code max_retries base_delay
      j1).result =
    (transcribe_audio respond audio_data language_code max_retries base_delay
      j2).result := by
  have h := retryLoop_result_jitter (respond (buildRequest audio_data language_code))
    max_retries base_delay j1 j2 max_retries 0
  simp only [transcribe_audio, exponential_backoff_retry]
  rw [h]
